import Mathlib

/-!
Shallow embedding of `src/fastriver/src/index.ts` (the i4tow album-creation
CLI core).  Pure string manipulation is translated directly; the effectful
orchestration (`createAlbum`, `processDirectory`) is translated as a pure
function of an explicit environment record that fixes the outcome of every
external call (HTTP responses, git operations, the clock, the filesystem),
returning the `AlbumResult` together with the list of performed effects.
Network exceptions inside the two HTTP clients (their catch branches) are
not part of the modelled environment: the environment describes completed
HTTP responses, which is the territory of all claims under check.
-/

namespace I4tow

/-- Whether `p` is an initial segment of `s` (over code units). -/
def leadMatches (p s : List Char) : Bool := s.take p.length == p

/-- Whether `sub` occurs contiguously inside `s`. -/
def subOccurs (sub : List Char) : List Char → Bool
  | [] => sub.isEmpty
  | c :: cs => leadMatches sub (c :: cs) || subOccurs sub cs

/-- JS `s.includes(sub)`: contiguous-substring containment. -/
def jsIncludes (s sub : String) : Bool := subOccurs sub.data s.data

/-- JS `s.startsWith(p)` (over code units). -/
def strStartsWith (s p : String) : Bool := leadMatches p.data s.data

/-- JS `s.toLowerCase()` on the per-code-unit alphabetic mapping that the
source exercises. -/
def jsToLower (s : String) : String := String.mk (s.data.map Char.toLower)

/-- Splitting a character list on a separator; the result list is always
non-empty. -/
def splitOnChar (sep : Char) : List Char → List (List Char)
  | [] => [[]]
  | c :: cs =>
    match splitOnChar sep cs with
    | [] => [[c]]
    | h :: t => if c == sep then [] :: h :: t else (c :: h) :: t

/-- JS `s.lastIndexOf(c)`: index of the last occurrence, or -1. -/
def lastIndexOf (s : List Char) (c : Char) : Int :=
  match s.reverse.findIdx? (fun x => x == c) with
  | some j => (s.length : Int) - 1 - j
  | none => -1

/-- JS `s.slice(i)` with a single, possibly negative, start argument:
a negative start counts from the end, clamped at 0. -/
def jsSliceFrom (s : List Char) (i : Int) : List Char :=
  if i < 0 then s.drop (((s.length : Int) + i).toNat)
  else s.drop i.toNat

/-- Node `path.join(a, b)` in the POSIX form used by the orchestrator. -/
def joinPath (a b : String) : String := a ++ "/" ++ b

/-- Node `path.basename(p)`: the last non-empty `/`-separated component.
The degenerate inputs (empty path, all slashes) are not exercised here. -/
def pathBasename (p : String) : String :=
  match ((splitOnChar '/' p.data).filter (fun s => s ≠ [])).getLast? with
  | some b => String.mk b
  | none => p

/-- JS template-literal rendering of a natural number (decimal digits). -/
def decRender (n : Nat) : String :=
  if n = 0 then "0"
  else String.mk (((Nat.digits 10 n).map Nat.digitChar).reverse)

/-- JS `v || d` on an optional string field: `undefined` and `""` are falsy. -/
def jsOrString (v : Option String) (d : String) : String :=
  match v with
  | some m => if m = "" then d else m
  | none => d

def TEMPLATE_REPO : String := "https://github.com/rathnasorg/i4tow-album.git"

def PHOTO_EXTENSIONS : List String :=
  [".jpg", ".jpeg", ".png", ".heic", ".webp", ".gif"]

/-- Translation of `isPhotoFile`: the slice from the last dot of the
lowercased name must be in the extension allow-list.  As in the source, the
dot index is computed on the original name and the slice is taken on the
lowercased one. -/
def isPhotoFile (filename : String) : Bool :=
  let ext := String.mk (jsSliceFrom (jsToLower filename).data (lastIndexOf filename.data '.'))
  PHOTO_EXTENSIONS.contains ext

/-- One entry of a scanned directory; `statThrows` models `statSync`
throwing on that entry (e.g. a broken symlink). -/
structure FsEntry where
  name : String
  isFile : Bool
  isDirectory : Bool
  statThrows : Bool
deriving DecidableEq

/-- State of one directory as seen by the scanner: `existsSync`, whether
`readdirSync` throws, and the listed entries. -/
structure DirState where
  present : Bool
  readdirThrows : Bool
  entries : List FsEntry
deriving DecidableEq

/-- Translation of `getPhotosInDir`: missing directory or a throwing
`readdirSync` give `[]`; an entry whose `statSync` throws is excluded. -/
def getPhotosInDir (d : DirState) : List String :=
  if !d.present then []
  else if d.readdirThrows then []
  else (d.entries.filter
    (fun e => !e.statThrows && (e.isFile && isPhotoFile e.name))).map FsEntry.name

/-- Translation of `getSubdirs`: directories whose name does not start
with a dot. -/
def getSubdirs (d : DirState) : List String :=
  if !d.present then []
  else if d.readdirThrows then []
  else (d.entries.filter
    (fun e => !e.statThrows && (e.isDirectory && !(strStartsWith e.name ".")))).map FsEntry.name

/-- Translation of `sanitizeRepoName`: drop all whitespace, then every
character outside `[a-zA-Z0-9_-]`. -/
def sanitizeRepoName (name : String) : String :=
  String.mk ((name.data.filter (fun c => !c.isWhitespace)).filter
    (fun c => ('a' ≤ c && c ≤ 'z') || ('A' ≤ c && c ≤ 'Z') ||
      ('0' ≤ c && c ≤ '9') || c == '_' || c == '-'))

/-- Observable effects of one orchestration run, in execution order. -/
inductive Effect where
  | fetchUser : Effect
  | fetchCreateRepo (apiUrl name : String) : Effect
  | fetchSecretKey (owner repo : String) : Effect
  | fetchPutSecret (owner repo secretName : String) : Effect
  | sleepMs (ms : Nat) : Effect
  | gitClone (url dest : String) : Effect
  | rmDir (path : String) : Effect
  | mkDir (path : String) : Effect
  | copyFile (src dst : String) : Effect
  | gitInit : Effect
  | gitAddRemote (remote url : String) : Effect
  | gitAdd (spec : String) : Effect
  | gitCommit (message : String) : Effect
  | gitPush : Effect
  | progressEv (step : String) (detail : Option String) : Effect
deriving DecidableEq

/-- An element of the `errors` array of a GitHub error response body. -/
structure ErrObj where
  message : Option String
deriving DecidableEq

/-- Environment of one `createGitHubRepo` call: the two completed HTTP
responses (`GET /user`, then the repo-creation POST) it consumes. -/
structure CreateRepoEnv where
  userOk : Bool
  userLogin : String
  createOk : Bool
  createMessage : Option String
  createErrors : List ErrObj
  createFullName : Option String
deriving DecidableEq

/-- Return type of `createGitHubRepo`; the optional `alreadyExists` field
of the source is a `Bool` defaulting to false. -/
structure RepoCreationOutcome where
  success : Bool
  error : Option String
  alreadyExists : Bool
deriving DecidableEq

/-- The `data.errors?.[0]?.message?.includes('already exists')` test. -/
def alreadyExistsResp (errors : List ErrObj) : Bool :=
  match errors.head? with
  | some e =>
    match e.message with
    | some m => jsIncludes m "already exists"
    | none => false
  | none => false

/-- Translation of `createGitHubRepo` over a `CreateRepoEnv`, paired with
the HTTP effects it performs. -/
def createGitHubRepo (name _token username : String) (env : CreateRepoEnv) :
    RepoCreationOutcome × List Effect :=
  if !env.userOk then
    ({ success := false,
       error := some "Invalid GitHub token. Check your token and try again.",
       alreadyExists := false }, [Effect.fetchUser])
  else
    let apiUrl :=
      if jsToLower username == jsToLower env.userLogin
      then "https://api.github.com/user/repos"
      else "https://api.github.com/orgs/" ++ username ++ "/repos"
    let effs := [Effect.fetchUser, Effect.fetchCreateRepo apiUrl name]
    if !env.createOk then
      if alreadyExistsResp env.createErrors then
        ({ success := true, error := none, alreadyExists := true }, effs)
      else if env.createMessage == some "Bad credentials" then
        ({ success := false,
           error := some "Invalid GitHub token. Check your token and try again.",
           alreadyExists := false }, effs)
      else if env.createMessage == some "Not Found" then
        ({ success := false,
           error := some ("Cannot create repo under \"" ++ username ++
             "\". Ensure token has access to this account/org."),
           alreadyExists := false }, effs)
      else
        ({ success := false,
           error := some (jsOrString env.createMessage "Failed to create repository"),
           alreadyExists := false }, effs)
    else
      match env.createFullName with
      | none =>
        ({ success := false,
           error := some "Repository creation failed - no repo returned",
           alreadyExists := false }, effs)
      | some _ => ({ success := true, error := none, alreadyExists := false }, effs)

/-- Environment of one `createRepoSecret` call: outcome of the public-key
GET and of the secret PUT.  The sealed-box encryption itself is a pure
local computation and is left abstract. -/
structure SecretEnv where
  keyOk : Bool
  putOk : Bool
  putMessage : Option String
deriving DecidableEq

/-- Return type of `createRepoSecret`. -/
structure SecretOutcome where
  success : Bool
  error : Option String
deriving DecidableEq

/-- Translation of `createRepoSecret` over a `SecretEnv`, paired with the
HTTP effects it performs. -/
def createRepoSecret (repoOwner repoName secretName _secretValue _token : String)
    (env : SecretEnv) : SecretOutcome × List Effect :=
  if !env.keyOk then
    ({ success := false, error := some "Failed to get repository public key" },
      [Effect.fetchSecretKey repoOwner repoName])
  else if !env.putOk then
    ({ success := false, error := some (jsOrString env.putMessage "Failed to create secret") },
      [Effect.fetchSecretKey repoOwner repoName,
       Effect.fetchPutSecret repoOwner repoName secretName])
  else
    ({ success := true, error := none },
      [Effect.fetchSecretKey repoOwner repoName,
       Effect.fetchPutSecret repoOwner repoName secretName])

/-- The while-loop of step 5 of `createAlbum`: `res k` is the outcome of
the `(k+1)`-th push call (`none` = success, `some e` = thrown error `e`).
The loop counter and `maxAttempts` are as in the source; the structural
`fuel` argument equals the number of remaining permitted iterations, so the
recursion is exact.  Returns the effects of the loop and either `ok` or the
propagated last error. -/
def pushLoopFuel (res : Nat → Option String) (maxAttempts : Nat) :
    Nat → Nat → List Effect × Except String Unit
  | _, 0 => ([], Except.ok ())
  | pushAttempts, fuel + 1 =>
    if pushAttempts < maxAttempts then
      match res pushAttempts with
      | none => ([Effect.gitPush], Except.ok ())
      | some e =>
        if pushAttempts + 1 ≥ maxAttempts then ([Effect.gitPush], Except.error e)
        else
          let rest := pushLoopFuel res maxAttempts (pushAttempts + 1) fuel
          (Effect.gitPush ::
            Effect.progressEv "Retrying push"
              (some ("Attempt " ++ decRender (pushAttempts + 2) ++ "/" ++
                decRender maxAttempts ++ "...")) ::
            Effect.sleepMs 2000 :: rest.1, rest.2)
    else ([], Except.ok ())

/-- The push-retry loop entered with counter 0; the fuel equals
`maxAttempts`, which bounds the number of iterations of the source loop. -/
def pushLoop (res : Nat → Option String) (maxAttempts : Nat) :
    List Effect × Except String Unit :=
  pushLoopFuel res maxAttempts 0 maxAttempts

/-- Caller-supplied options of `createAlbum`; the optional `dryRun` flag
is a `Bool`, and the optional progress sink is modelled by recording every
emitted progress event in the effect list. -/
structure AlbumOptions where
  token : String
  username : String
  dryRun : Bool
deriving DecidableEq

/-- Translation of the `AlbumResult` interface; the optional fields are
`Option`-valued. -/
structure AlbumResult where
  name : String
  repoUrl : String
  albumUrl : String
  success : Bool
  error : Option String
  photoCount : Option Nat
deriving DecidableEq

/-- Environment of one live `createAlbum` run: outcomes of every external
call it may make, plus the clock value (`Date.now()`) and `os.tmpdir()`
that name the ephemeral workspace.  `cloneErr` is the error thrown by the
template clone, if any; `pushResults k` is the outcome of the `(k+1)`-th
push call; `cleanupThrows` tells whether the final workspace removal
throws (the source swallows it). -/
structure AlbumEnv where
  repoEnv : CreateRepoEnv
  cloneErr : Option String
  tempGitPresent : Bool
  tempDemoPresent : Bool
  pushResults : Nat → Option String
  secretEnv : SecretEnv
  cleanupThrows : Bool
  now : Nat
  tmpdir : String

/-- The catch-branch rewriting of known error substrings of `createAlbum`. -/
def classifyError (errorMessage : String) : String :=
  if jsIncludes errorMessage "Authentication failed" then
    "GitHub authentication failed. Check your token."
  else if jsIncludes errorMessage "Permission denied" then
    "Permission denied. Ensure token has \"repo\" scope."
  else if jsIncludes errorMessage "Repository not found" then
    "Repository not found. It may still be creating, try again in a moment."
  else errorMessage

/-- The `i4tow-` prefixing of the repo-name hint, applied only when the
hint does not already carry the marker. -/
def fullNameOf (repoName : String) : String :=
  if strStartsWith repoName "i4tow-" then repoName else "i4tow-" ++ repoName

/-- The ephemeral workspace path: `join(tmpdir(), ` + `i4tow-` +
`Date.now())`. -/
def tempDirOf (tmp : String) (now : Nat) : String :=
  joinPath tmp ("i4tow-" ++ decRender now)

/-- JS template-literal rendering of an optional string. -/
def jsRenderOpt (v : Option String) : String :=
  match v with
  | some m => m
  | none => "undefined"

/-- The body of the try-block of `createAlbum` (steps 1 to 6 plus cleanup),
entered only on a live run with a non-empty photo list.  The two throw
sites of the model (clone, push exhaustion) flow into the catch-branch
result with the classified message. -/
def createAlbumLive (sourceDir : String) (photos : List String)
    (fullRepoName albumUrl : String) (opts : AlbumOptions) (env : AlbumEnv) :
    AlbumResult × List Effect :=
  let cr := createGitHubRepo fullRepoName opts.token opts.username env.repoEnv
  let effs0 := Effect.progressEv "Creating repository" (some fullRepoName) :: cr.2
  if !cr.1.success then
    ({ name := fullRepoName, repoUrl := "", albumUrl := "", success := false,
       error := cr.1.error, photoCount := some photos.length }, effs0)
  else
    let effs1 := effs0 ++
      (if cr.1.alreadyExists then
        [Effect.progressEv "Repository exists" (some "Using existing repository")]
      else
        [Effect.progressEv "Waiting for GitHub" (some "Repository provisioning..."),
         Effect.sleepMs 3000])
    let tempDir := tempDirOf env.tmpdir env.now
    let effs2 := effs1 ++
      [Effect.progressEv "Downloading template" (some "rathnasorg/i4tow-album"),
       Effect.gitClone TEMPLATE_REPO tempDir]
    match env.cloneErr with
    | some e =>
      ({ name := fullRepoName, repoUrl := "", albumUrl := "", success := false,
         error := some (classifyError e), photoCount := some photos.length }, effs2)
    | none =>
      let effs3 := effs2 ++
        [Effect.progressEv "Preparing album" (some "Cleaning template files")] ++
        (if env.tempGitPresent then [Effect.rmDir (joinPath tempDir ".git")] else []) ++
        (if env.tempDemoPresent then [Effect.rmDir (joinPath tempDir "temp-demo-files")] else [])
      let photosDir := joinPath (joinPath (joinPath tempDir "public") "photos") "raw2"
      let effs4 := effs3 ++
        [Effect.progressEv "Copying photos" (some (decRender photos.length ++ " files")),
         Effect.mkDir photosDir] ++
        photos.map (fun p => Effect.copyFile (joinPath sourceDir p) (joinPath photosDir p))
      let repoUrl := "https://" ++ opts.username ++ ":" ++ opts.token ++
        "@github.com/" ++ opts.username ++ "/" ++ fullRepoName ++ ".git"
      let effs5 := effs4 ++
        [Effect.progressEv "Uploading to GitHub"
           (some ("Pushing to " ++ opts.username ++ "/" ++ fullRepoName)),
         Effect.gitInit, Effect.gitAddRemote "origin" repoUrl, Effect.gitAdd ".",
         Effect.gitCommit (decRender photos.length ++ " photos added via i4tow")]
      let pl := pushLoop env.pushResults 3
      let effs6 := effs5 ++ pl.1
      match pl.2 with
      | Except.error e =>
        ({ name := fullRepoName, repoUrl := "", albumUrl := "", success := false,
           error := some (classifyError e), photoCount := some photos.length }, effs6)
      | Except.ok _ =>
        let sec := createRepoSecret opts.username fullRepoName "DEPLOY_TOKEN"
          opts.token opts.token env.secretEnv
        let effs7 := effs6 ++
          Effect.progressEv "Setting up Actions" (some "Creating deploy token...") :: sec.2
        let effs8 := effs7 ++
          (if sec.1.success then []
           else [Effect.progressEv "Warning"
             (some ("Could not create deploy secret: " ++ jsRenderOpt sec.1.error))])
        let effs9 := effs8 ++ [Effect.rmDir tempDir]
        ({ name := fullRepoName,
           repoUrl := "https://github.com/" ++ opts.username ++ "/" ++ fullRepoName,
           albumUrl := albumUrl, success := true, error := none,
           photoCount := some photos.length }, effs9)

/-- Translation of `createAlbum`: the source directory is scanned once;
zero photos short-circuit to the failed result, dry run returns the
synthesized result, otherwise the live body runs. -/
def createAlbum (sourceDir : String) (srcState : DirState) (repoName : String)
    (opts : AlbumOptions) (env : AlbumEnv) : AlbumResult × List Effect :=
  let fullRepoName := fullNameOf repoName
  let photos := getPhotosInDir srcState
  let albumUrl := "https://rathnasorg.github.io/i4tow/a/" ++ fullRepoName
  if photos.length == 0 then
    ({ name := fullRepoName, repoUrl := "", albumUrl := "", success := false,
       error := some "No photos found in directory", photoCount := some 0 }, [])
  else if opts.dryRun then
    ({ name := fullRepoName,
       repoUrl := "https://github.com/" ++ opts.username ++ "/" ++ fullRepoName,
       albumUrl := albumUrl, success := true, error := none,
       photoCount := some photos.length }, [])
  else
    createAlbumLive sourceDir photos fullRepoName albumUrl opts env

/-- Options of `processDirectory`: the album options plus the two optional
mode flags. -/
structure BatchOptions where
  token : String
  username : String
  dryRun : Bool
  batch : Bool
  single : Bool
deriving DecidableEq

/-- The album options passed through to each `createAlbum` call. -/
def BatchOptions.toAlbumOptions (o : BatchOptions) : AlbumOptions :=
  { token := o.token, username := o.username, dryRun := o.dryRun }

/-- Filesystem as seen by one `processDirectory` call: the root directory
state and the state of each immediate subdirectory, keyed by its name. -/
structure BatchFs where
  root : DirState
  subState : String → DirState

/-- Translation of `processDirectory`.  Each `createAlbum` call receives
its own environment, keyed by the source path it targets; the per-album
effect lists are dropped, as the source returns results only. -/
def processDirectory (dirPath : String) (fs : BatchFs) (opts : BatchOptions)
    (envs : String → AlbumEnv) : List AlbumResult :=
  let photos := getPhotosInDir fs.root
  let subdirs := getSubdirs fs.root
  let hasPhotos := photos.length > 0
  let hasSubdirs := subdirs.length > 0
  if opts.single || (hasPhotos && !hasSubdirs) || (hasPhotos && !opts.batch) then
    [(createAlbum dirPath fs.root (sanitizeRepoName (pathBasename dirPath))
        opts.toAlbumOptions (envs dirPath)).1]
  else if opts.batch || hasSubdirs then
    subdirs.filterMap (fun subdir =>
      let subdirPath := joinPath dirPath subdir
      if (getPhotosInDir (fs.subState subdir)).length > 0 then
        some (createAlbum subdirPath (fs.subState subdir) (sanitizeRepoName subdir)
          opts.toAlbumOptions (envs subdirPath)).1
      else none)
  else []

/-- Number of effects of a trace satisfying a predicate. -/
def countEff (p : Effect → Bool) (effs : List Effect) : Nat := (effs.filter p).length

/-- Recognizer of push effects. -/
def isPushEff : Effect → Bool
  | Effect.gitPush => true
  | _ => false

/-- Recognizer of the provisioning-grace sleep. -/
def isSleep3000 : Effect → Bool
  | Effect.sleepMs ms => ms == 3000
  | _ => false

/-- Recognizer of the push-retry backoff sleep. -/
def isSleep2000 : Effect → Bool
  | Effect.sleepMs ms => ms == 2000
  | _ => false

/-- Recognizer of remote (network) effects: the HTTP calls, the clone and
the pushes all talk to the remote service. -/
def isRemoteEff : Effect → Bool
  | Effect.fetchUser => true
  | Effect.fetchCreateRepo _ _ => true
  | Effect.fetchSecretKey _ _ => true
  | Effect.fetchPutSecret _ _ _ => true
  | Effect.gitClone _ _ => true
  | Effect.gitPush => true
  | _ => false

theorem countEff_append (p : Effect → Bool) (a b : List Effect) :
    countEff p (a ++ b) = countEff p a + countEff p b := by
  simp [countEff, List.filter_append]

theorem countEff_nil (p : Effect → Bool) : countEff p [] = 0 := rfl

/-- A pushed-once success run of the retry loop. -/
theorem pushLoop_firstOk (res : Nat → Option String) (h0 : res 0 = none) :
    pushLoop res 3 = ([Effect.gitPush], Except.ok ()) := by
  simp [pushLoop, pushLoopFuel, h0]

/-- Failures on the first two push calls and success on the third: three
push calls, two backoff sleeps, overall success. -/
theorem pushLoop_thirdOk (res : Nat → Option String) (e0 e1 : String)
    (h0 : res 0 = some e0) (h1 : res 1 = some e1) (h2 : res 2 = none) :
    pushLoop res 3 =
      ([Effect.gitPush,
        Effect.progressEv "Retrying push" (some ("Attempt " ++ decRender 2 ++ "/" ++ decRender 3 ++ "...")),
        Effect.sleepMs 2000,
        Effect.gitPush,
        Effect.progressEv "Retrying push" (some ("Attempt " ++ decRender 3 ++ "/" ++ decRender 3 ++ "...")),
        Effect.sleepMs 2000,
        Effect.gitPush], Except.ok ()) := by
  simp [pushLoop, pushLoopFuel, h0, h1, h2]

/-- Failures on all three push calls: three push calls, two backoff
sleeps, and the loop propagates the last error. -/
theorem pushLoop_allFail (res : Nat → Option String) (e0 e1 e2 : String)
    (h0 : res 0 = some e0) (h1 : res 1 = some e1) (h2 : res 2 = some e2) :
    pushLoop res 3 =
      ([Effect.gitPush,
        Effect.progressEv "Retrying push" (some ("Attempt " ++ decRender 2 ++ "/" ++ decRender 3 ++ "...")),
        Effect.sleepMs 2000,
        Effect.gitPush,
        Effect.progressEv "Retrying push" (some ("Attempt " ++ decRender 3 ++ "/" ++ decRender 3 ++ "...")),
        Effect.sleepMs 2000,
        Effect.gitPush], Except.error e2) := by
  simp [pushLoop, pushLoopFuel, h0, h1, h2]

/-- The retry loop never performs more than three push calls. -/
theorem pushLoop_count_le (res : Nat → Option String) :
    countEff isPushEff (pushLoop res 3).1 ≤ 3 := by
  cases h0 : res 0 with
  | none => rw [pushLoop_firstOk res h0]; decide
  | some e0 =>
    cases h1 : res 1 with
    | none => simp [pushLoop, pushLoopFuel, h0, h1, countEff, isPushEff]
    | some e1 =>
      cases h2 : res 2 with
      | none => rw [pushLoop_thirdOk res e0 e1 h0 h1 h2]; simp [countEff, isPushEff]
      | some e2 => rw [pushLoop_allFail res e0 e1 e2 h0 h1 h2]; simp [countEff, isPushEff]

/-- Auxiliary: on every branch of the live body, `photoCount` is the
length of the photo list computed by the single scan. -/
theorem createAlbumLive_photoCount (sourceDir : String) (photos : List String)
    (fullRepoName albumUrl : String) (opts : AlbumOptions) (env : AlbumEnv) :
    (createAlbumLive sourceDir photos fullRepoName albumUrl opts env).1.photoCount =
      some photos.length := by
  unfold createAlbumLive
  cases hcs : (createGitHubRepo fullRepoName opts.token opts.username env.repoEnv).1.success with
  | false => simp [hcs]
  | true =>
    cases hcl : env.cloneErr with
    | some e => simp [hcs, hcl]
    | none =>
      cases hpl : (pushLoop env.pushResults 3).2 with
      | error e => simp [hcs, hcl, hpl]
      | ok u => simp [hcs, hcl, hpl]

/-- C7: for every createAlbum run, the photoCount field of the returned
result equals the number of photo files found by the single scan of the
source directory performed at the start of the attempt, on every exit
path. -/
theorem createAlbum_photoCount_invariant (sourceDir : String) (srcState : DirState)
    (repoName : String) (opts : AlbumOptions) (env : AlbumEnv) :
    (createAlbum sourceDir srcState repoName opts env).1.photoCount =
      some (getPhotosInDir srcState).length := by
  unfold createAlbum
  by_cases hz : (getPhotosInDir srcState).length = 0
  · simp [hz]
  · cases hd : opts.dryRun with
    | true => simp [hz, hd]
    | false => simp [hz, hd, createAlbumLive_photoCount]

/-- C1: for every source directory in which the photo scan finds zero
photos, createAlbum, in every mode, returns success=false with error
exactly "No photos found in directory", photoCount=0 and both URLs empty,
and its effect trace is empty, so no remote call is performed. -/
theorem createAlbum_noPhotos_shortCircuits (sourceDir : String) (srcState : DirState)
    (repoName : String) (opts : AlbumOptions) (env : AlbumEnv)
    (h : getPhotosInDir srcState = []) :
    createAlbum sourceDir srcState repoName opts env =
      ({ name := fullNameOf repoName, repoUrl := "", albumUrl := "",
         success := false, error := some "No photos found in directory",
         photoCount := some 0 }, []) ∧
    countEff isRemoteEff (createAlbum sourceDir srcState repoName opts env).2 = 0 := by
  constructor
  · simp [createAlbum, h]
  · simp [createAlbum, h, countEff]

/-- C4: for every source directory containing at least one photo,
createAlbum with dryRun set has an empty effect trace (no network, git or
workspace operation) and returns success=true with the URLs computed from
the naming rules and photoCount equal to the number of photos found. -/
theorem createAlbum_dryRun_pure (sourceDir : String) (srcState : DirState)
    (repoName : String) (opts : AlbumOptions) (env : AlbumEnv)
    (hp : getPhotosInDir srcState ≠ []) (hd : opts.dryRun = true) :
    createAlbum sourceDir srcState repoName opts env =
      ({ name := fullNameOf repoName,
         repoUrl := "https://github.com/" ++ opts.username ++ "/" ++ fullNameOf repoName,
         albumUrl := "https://rathnasorg.github.io/i4tow/a/" ++ fullNameOf repoName,
         success := true, error := none,
         photoCount := some (getPhotosInDir srcState).length }, []) := by
  simp [createAlbum, hd, List.length_eq_zero, hp]

/-- C8 amended form: for every repository-creation call whose HTTP
response is ok but whose body lacks a full_name field, createGitHubRepo
returns failure, with the error message exactly "Repository creation
failed - no repo returned". -/
theorem createGitHubRepo_missing_fullName_fails (name token username : String)
    (env : CreateRepoEnv) (hu : env.userOk = true) (hc : env.createOk = true)
    (hf : env.createFullName = none) :
    (createGitHubRepo name token username env).1 =
      { success := false,
        error := some "Repository creation failed - no repo returned",
        alreadyExists := false } := by
  simp [createGitHubRepo, hu, hc, hf]

/-- Concrete ok response whose body carries no full_name field. -/
def respNoFullName : CreateRepoEnv :=
  { userOk := true, userLogin := "tester", createOk := true,
    createMessage := none, createErrors := [], createFullName := none }

/-- C8 counterexample: at a concrete ok response with no full_name, the
outcome is a failure, but its error message is "Repository creation failed
- no repo returned", not the "creation reported success but no repo
returned" stated by the claim. -/
theorem createGitHubRepo_missing_fullName_message_cex :
    (createGitHubRepo "i4tow-Alb" "tok" "tester" respNoFullName).1.success = false ∧
    (createGitHubRepo "i4tow-Alb" "tok" "tester" respNoFullName).1.error ≠
      some "creation reported success but no repo returned" ∧
    (createGitHubRepo "i4tow-Alb" "tok" "tester" respNoFullName).1.error =
      some "Repository creation failed - no repo returned" := by
  refine ⟨?_, ?_, ?_⟩ <;> decide

/-- Witness for the amended C8 theorem at the concrete response above. -/
theorem createGitHubRepo_missing_fullName_fails_witness :
    (createGitHubRepo "i4tow-Alb" "tok" "tester" respNoFullName).1 =
      { success := false,
        error := some "Repository creation failed - no repo returned",
        alreadyExists := false } :=
  createGitHubRepo_missing_fullName_fails "i4tow-Alb" "tok" "tester" respNoFullName
    rfl rfl rfl

/-- C10: a hidden file whose entire name is one of the allowed extensions
satisfies isPhotoFile, and such an entry listed as a plain file is counted
by getPhotosInDir. -/
theorem isPhotoFile_bare_extension_counted (e : String) (he : e ∈ PHOTO_EXTENSIONS)
    (d : DirState) (hd : d.present = true) (hr : d.readdirThrows = false)
    (hent : FsEntry.mk e true false false ∈ d.entries) :
    isPhotoFile e = true ∧ e ∈ getPhotosInDir d := by
  have hphoto : isPhotoFile e = true := by fin_cases he <;> decide
  refine ⟨hphoto, ?_⟩
  simp only [getPhotosInDir, hd, hr, Bool.not_true, Bool.false_eq_true, if_false,
    ite_false, List.mem_map]
  exact ⟨FsEntry.mk e true false false, List.mem_filter.mpr ⟨hent, by simp [hphoto]⟩, rfl⟩

/-- Concrete directory with two photos, used by witnesses. -/
def samplePhotoDir : DirState :=
  { present := true, readdirThrows := false,
    entries := [⟨"a.jpg", true, false, false⟩, ⟨"b.png", true, false, false⟩] }

/-- Concrete empty directory, used by witnesses. -/
def emptyPhotoDir : DirState := { present := true, readdirThrows := false, entries := [] }

/-- Concrete fully successful repo-creation response, used by witnesses. -/
def sampleRepoEnvOk : CreateRepoEnv :=
  { userOk := true, userLogin := "tester", createOk := true, createMessage := none,
    createErrors := [], createFullName := some "tester/i4tow-Alb" }

/-- Concrete successful secret-provisioning responses, used by witnesses. -/
def sampleSecretEnvOk : SecretEnv := { keyOk := true, putOk := true, putMessage := none }

/-- Concrete live-run environment in which every external call succeeds,
used by witnesses. -/
def sampleEnv : AlbumEnv :=
  { repoEnv := sampleRepoEnvOk, cloneErr := none, tempGitPresent := true,
    tempDemoPresent := false, pushResults := fun _ => none,
    secretEnv := sampleSecretEnvOk, cleanupThrows := false,
    now := 1700000000000, tmpdir := "/tmp" }

/-- Witness for C1 at a concrete empty directory. -/
theorem createAlbum_noPhotos_shortCircuits_witness :
    createAlbum "/p" emptyPhotoDir "Alb" ⟨"tok", "tester", false⟩ sampleEnv =
      ({ name := fullNameOf "Alb", repoUrl := "", albumUrl := "",
         success := false, error := some "No photos found in directory",
         photoCount := some 0 }, []) ∧
    countEff isRemoteEff (createAlbum "/p" emptyPhotoDir "Alb" ⟨"tok", "tester", false⟩ sampleEnv).2 = 0 :=
  createAlbum_noPhotos_shortCircuits "/p" emptyPhotoDir "Alb" ⟨"tok", "tester", false⟩ sampleEnv rfl

/-- Witness for C4 at a concrete two-photo directory. -/
theorem createAlbum_dryRun_pure_witness :
    createAlbum "/p" samplePhotoDir "Alb" ⟨"tok", "tester", true⟩ sampleEnv =
      ({ name := fullNameOf "Alb",
         repoUrl := "https://github.com/" ++ "tester" ++ "/" ++ fullNameOf "Alb",
         albumUrl := "https://rathnasorg.github.io/i4tow/a/" ++ fullNameOf "Alb",
         success := true, error := none,
         photoCount := some (getPhotosInDir samplePhotoDir).length }, []) :=
  createAlbum_dryRun_pure "/p" samplePhotoDir "Alb" ⟨"tok", "tester", true⟩ sampleEnv
    (by decide) rfl

/-- Witness for C10 at the concrete hidden file named ".jpg". -/
theorem isPhotoFile_bare_extension_counted_witness :
    isPhotoFile ".jpg" = true ∧
    ".jpg" ∈ getPhotosInDir ⟨true, false, [⟨".jpg", true, false, false⟩]⟩ :=
  isPhotoFile_bare_extension_counted ".jpg" (by decide)
    ⟨true, false, [⟨".jpg", true, false, false⟩]⟩ rfl rfl (by decide)

/-- The repo client performs either the identity fetch alone (invalid
token) or the identity fetch followed by one creation call. -/
theorem createGitHubRepo_effects_shape (name token username : String) (env : CreateRepoEnv) :
    (createGitHubRepo name token username env).2 = [Effect.fetchUser] ∨
    ∃ url, (createGitHubRepo name token username env).2 =
      [Effect.fetchUser, Effect.fetchCreateRepo url name] := by
  cases hu : env.userOk with
  | false => left; simp [createGitHubRepo, hu]
  | true =>
    right
    refine ⟨if jsToLower username == jsToLower env.userLogin
      then "https://api.github.com/user/repos"
      else "https://api.github.com/orgs/" ++ username ++ "/repos", ?_⟩
    simp only [createGitHubRepo, hu, Bool.not_true, Bool.false_eq_true, if_false, ite_false]
    cases hc : env.createOk with
    | false =>
      simp only [Bool.not_false, if_true, ite_true]
      split_ifs <;> rfl
    | true =>
      simp only [Bool.not_true, Bool.false_eq_true, if_false, ite_false]
      cases hf : env.createFullName <;> rfl

/-- The secret client performs the key fetch alone or the key fetch
followed by the secret upload. -/
theorem createRepoSecret_effects_shape (a b c d e : String) (env : SecretEnv) :
    (createRepoSecret a b c d e env).2 = [Effect.fetchSecretKey a b] ∨
    (createRepoSecret a b c d e env).2 =
      [Effect.fetchSecretKey a b, Effect.fetchPutSecret a b c] := by
  unfold createRepoSecret
  split_ifs <;> simp

/-- Predicates false on both HTTP-fetch effects count zero over the repo
client trace. -/
theorem countEff_repo_zero (p : Effect → Bool) (h1 : p Effect.fetchUser = false)
    (h2 : ∀ u n, p (Effect.fetchCreateRepo u n) = false)
    (name token username : String) (env : CreateRepoEnv) :
    countEff p (createGitHubRepo name token username env).2 = 0 := by
  rcases createGitHubRepo_effects_shape name token username env with h | ⟨url, h⟩ <;>
    simp [h, countEff, List.filter, h1, h2]

/-- Predicates false on both secret-call effects count zero over the
secret client trace. -/
theorem countEff_secret_zero (p : Effect → Bool)
    (h1 : ∀ a b, p (Effect.fetchSecretKey a b) = false)
    (h2 : ∀ a b c, p (Effect.fetchPutSecret a b c) = false)
    (a b c d e : String) (env : SecretEnv) :
    countEff p (createRepoSecret a b c d e env).2 = 0 := by
  rcases createRepoSecret_effects_shape a b c d e env with h | h <;>
    simp [h, countEff, List.filter, h1, h2]

/-- A predicate false on every image of `f` counts zero over a mapped
list. -/
theorem countEff_map_zero {α : Type} (p : Effect → Bool) (f : α → Effect) (l : List α)
    (h : ∀ x, p (f x) = false) : countEff p (l.map f) = 0 := by
  induction l with
  | nil => rfl
  | cons a t ih =>
    simp only [List.map_cons, countEff, List.filter, h a] at *
    exact ih

/-- On a live run in which repo creation succeeded, the clone did not
throw and the push loop succeeded, the result is the populated success
record. -/
theorem createAlbumLive_success_result (sourceDir : String) (photos : List String)
    (fullRepoName albumUrl : String) (opts : AlbumOptions) (env : AlbumEnv)
    (hcr : (createGitHubRepo fullRepoName opts.token opts.username env.repoEnv).1.success = true)
    (hclone : env.cloneErr = none) (u : Unit)
    (hpl : (pushLoop env.pushResults 3).2 = Except.ok u) :
    (createAlbumLive sourceDir photos fullRepoName albumUrl opts env).1 =
      { name := fullRepoName,
        repoUrl := "https://github.com/" ++ opts.username ++ "/" ++ fullRepoName,
        albumUrl := albumUrl, success := true, error := none,
        photoCount := some photos.length } := by
  unfold createAlbumLive
  simp [hcr, hclone, hpl]

/-- On a live run in which repo creation succeeded and the clone did not
throw but the push loop exhausted its attempts, the result is the failed
record carrying the classified last push error. -/
theorem createAlbumLive_pushExhausted_result (sourceDir : String) (photos : List String)
    (fullRepoName albumUrl : String) (opts : AlbumOptions) (env : AlbumEnv)
    (hcr : (createGitHubRepo fullRepoName opts.token opts.username env.repoEnv).1.success = true)
    (hclone : env.cloneErr = none) (e : String)
    (hpl : (pushLoop env.pushResults 3).2 = Except.error e) :
    (createAlbumLive sourceDir photos fullRepoName albumUrl opts env).1 =
      { name := fullRepoName, repoUrl := "", albumUrl := "", success := false,
        error := some (classifyError e), photoCount := some photos.length } := by
  unfold createAlbumLive
  simp [hcr, hclone, hpl]

/-- On a live run that reaches the staging phase, the count of any effect
kind produced only by the push loop equals its count over the push-loop
trace alone. -/
theorem createAlbumLive_count_from_pushLoop (p : Effect → Bool)
    (hprog : ∀ s d, p (Effect.progressEv s d) = false)
    (hfu : p Effect.fetchUser = false)
    (hfc : ∀ u n, p (Effect.fetchCreateRepo u n) = false)
    (hfk : ∀ a b, p (Effect.fetchSecretKey a b) = false)
    (hfp : ∀ a b c, p (Effect.fetchPutSecret a b c) = false)
    (hs3 : p (Effect.sleepMs 3000) = false)
    (hcl : ∀ u d, p (Effect.gitClone u d) = false)
    (hrm : ∀ q, p (Effect.rmDir q) = false)
    (hmk : ∀ q, p (Effect.mkDir q) = false)
    (hcp : ∀ s d, p (Effect.copyFile s d) = false)
    (hin : p Effect.gitInit = false)
    (har : ∀ r u, p (Effect.gitAddRemote r u) = false)
    (had : ∀ s, p (Effect.gitAdd s) = false)
    (hcm : ∀ m, p (Effect.gitCommit m) = false)
    (sourceDir : String) (photos : List String) (fullRepoName albumUrl : String)
    (opts : AlbumOptions) (env : AlbumEnv)
    (hcr : (createGitHubRepo fullRepoName opts.token opts.username env.repoEnv).1.success = true)
    (hclone : env.cloneErr = none) :
    countEff p (createAlbumLive sourceDir photos fullRepoName albumUrl opts env).2 =
      countEff p (pushLoop env.pushResults 3).1 := by
  have hrepo0 : List.filter p (createGitHubRepo fullRepoName opts.token opts.username env.repoEnv).2 = [] := by
    rcases createGitHubRepo_effects_shape fullRepoName opts.token opts.username env.repoEnv with
      h | ⟨url, h⟩ <;> simp [h, List.filter, hfu, hfc]
  have hsec0 : List.filter p (createRepoSecret opts.username fullRepoName "DEPLOY_TOKEN"
      opts.token opts.token env.secretEnv).2 = [] := by
    rcases createRepoSecret_effects_shape opts.username fullRepoName "DEPLOY_TOKEN"
      opts.token opts.token env.secretEnv with h | h <;> simp [h, List.filter, hfk, hfp]
  have hmap0 : ∀ (f : String → Effect), (∀ x, p (f x) = false) →
      List.filter p (photos.map f) = [] := by
    intro f hf
    induction photos with
    | nil => rfl
    | cons a t ih => simp only [List.map_cons, List.filter, hf a]; exact ih
  unfold createAlbumLive
  cases hpl : (pushLoop env.pushResults 3).2 with
  | error e =>
    simp [hcr, hclone, hpl, countEff, List.filter_append, apply_ite (List.filter p),
      List.filter, hprog, hfu, hs3, hcl, hrm, hmk, hin, har, had, hcm, hrepo0, hsec0,
      hmap0 _ (fun x => hcp _ _)]
  | ok u =>
    simp [hcr, hclone, hpl, countEff, List.filter_append, apply_ite (List.filter p),
      List.filter, hprog, hfu, hs3, hcl, hrm, hmk, hin, har, had, hcm, hrepo0, hsec0,
      hmap0 _ (fun x => hcp _ _)]

/-- On a run with photos and without dryRun, createAlbum is the live
body. -/
theorem createAlbum_live_eq (sourceDir : String) (srcState : DirState) (repoName : String)
    (opts : AlbumOptions) (env : AlbumEnv)
    (hp : getPhotosInDir srcState ≠ []) (hd : opts.dryRun = false) :
    createAlbum sourceDir srcState repoName opts env =
      createAlbumLive sourceDir (getPhotosInDir srcState) (fullNameOf repoName)
        ("https://rathnasorg.github.io/i4tow/a/" ++ fullNameOf repoName) opts env := by
  simp [createAlbum, hd, List.length_eq_zero, hp]

/-- C2: in a live createAlbum run that reaches the push step, the push is
attempted at most 3 times; if all three attempts fail the last push error
is propagated and the album fails, and if attempts 1 and 2 fail and
attempt 3 succeeds then exactly 3 push attempts (with 2 backoff sleeps)
are made and the album succeeds. -/
theorem createAlbum_push_retry_policy (sourceDir : String) (srcState : DirState)
    (repoName : String) (opts : AlbumOptions) (env : AlbumEnv)
    (hp : getPhotosInDir srcState ≠ []) (hd : opts.dryRun = false)
    (hcr : (createGitHubRepo (fullNameOf repoName) opts.token opts.username env.repoEnv).1.success = true)
    (hclone : env.cloneErr = none) :
    countEff isPushEff (createAlbum sourceDir srcState repoName opts env).2 ≤ 3 ∧
    (∀ e0 e1 e2, env.pushResults 0 = some e0 → env.pushResults 1 = some e1 →
      env.pushResults 2 = some e2 →
      (createAlbum sourceDir srcState repoName opts env).1.success = false ∧
      (createAlbum sourceDir srcState repoName opts env).1.error = some (classifyError e2) ∧
      countEff isPushEff (createAlbum sourceDir srcState repoName opts env).2 = 3 ∧
      countEff isSleep2000 (createAlbum sourceDir srcState repoName opts env).2 = 2) ∧
    (∀ e0 e1, env.pushResults 0 = some e0 → env.pushResults 1 = some e1 →
      env.pushResults 2 = none →
      (createAlbum sourceDir srcState repoName opts env).1.success = true ∧
      countEff isPushEff (createAlbum sourceDir srcState repoName opts env).2 = 3 ∧
      countEff isSleep2000 (createAlbum sourceDir srcState repoName opts env).2 = 2) := by
  have hlive := createAlbum_live_eq sourceDir srcState repoName opts env hp hd
  have hcountP := createAlbumLive_count_from_pushLoop isPushEff
    (fun _ _ => rfl) rfl (fun _ _ => rfl) (fun _ _ => rfl) (fun _ _ _ => rfl) rfl
    (fun _ _ => rfl) (fun _ => rfl) (fun _ => rfl) (fun _ _ => rfl) rfl
    (fun _ _ => rfl) (fun _ => rfl) (fun _ => rfl)
    sourceDir (getPhotosInDir srcState) (fullNameOf repoName)
    ("https://rathnasorg.github.io/i4tow/a/" ++ fullNameOf repoName) opts env hcr hclone
  have hcountS := createAlbumLive_count_from_pushLoop isSleep2000
    (fun _ _ => rfl) rfl (fun _ _ => rfl) (fun _ _ => rfl) (fun _ _ _ => rfl) (by decide)
    (fun _ _ => rfl) (fun _ => rfl) (fun _ => rfl) (fun _ _ => rfl) rfl
    (fun _ _ => rfl) (fun _ => rfl) (fun _ => rfl)
    sourceDir (getPhotosInDir srcState) (fullNameOf repoName)
    ("https://rathnasorg.github.io/i4tow/a/" ++ fullNameOf repoName) opts env hcr hclone
  refine ⟨?_, ?_, ?_⟩
  · rw [hlive, hcountP]
    exact pushLoop_count_le env.pushResults
  · intro e0 e1 e2 h0 h1 h2
    have hpl := pushLoop_allFail env.pushResults e0 e1 e2 h0 h1 h2
    have hpl2 : (pushLoop env.pushResults 3).2 = Except.error e2 := by rw [hpl]
    have hres := createAlbumLive_pushExhausted_result sourceDir (getPhotosInDir srcState)
      (fullNameOf repoName) ("https://rathnasorg.github.io/i4tow/a/" ++ fullNameOf repoName)
      opts env hcr hclone e2 hpl2
    rw [hlive]
    refine ⟨by rw [hres], by rw [hres], ?_, ?_⟩
    · rw [hcountP, hpl]; simp [countEff, List.filter, isPushEff, isSleep2000]
    · rw [hcountS, hpl]; simp [countEff, List.filter, isPushEff, isSleep2000]
  · intro e0 e1 h0 h1 h2
    have hpl := pushLoop_thirdOk env.pushResults e0 e1 h0 h1 h2
    have hpl2 : (pushLoop env.pushResults 3).2 = Except.ok () := by rw [hpl]
    have hres := createAlbumLive_success_result sourceDir (getPhotosInDir srcState)
      (fullNameOf repoName) ("https://rathnasorg.github.io/i4tow/a/" ++ fullNameOf repoName)
      opts env hcr hclone () hpl2
    rw [hlive]
    refine ⟨by rw [hres], ?_, ?_⟩
    · rw [hcountP, hpl]; simp [countEff, List.filter, isPushEff, isSleep2000]
    · rw [hcountS, hpl]; simp [countEff, List.filter, isPushEff, isSleep2000]

/-- Concrete environment in which the first two push attempts fail and
the third succeeds. -/
def retryEnv : AlbumEnv :=
  { sampleEnv with pushResults := fun k => if k < 2 then some "push failed" else none }

/-- Witness for C2: at the concrete fail-fail-succeed push environment,
the album succeeds with exactly 3 push attempts and 2 backoff sleeps. -/
theorem createAlbum_push_retry_policy_witness :
    (createAlbum "/p" samplePhotoDir "Alb" ⟨"tok", "tester", false⟩ retryEnv).1.success = true ∧
    countEff isPushEff (createAlbum "/p" samplePhotoDir "Alb" ⟨"tok", "tester", false⟩ retryEnv).2 = 3 ∧
    countEff isSleep2000 (createAlbum "/p" samplePhotoDir "Alb" ⟨"tok", "tester", false⟩ retryEnv).2 = 2 :=
  (createAlbum_push_retry_policy "/p" samplePhotoDir "Alb" ⟨"tok", "tester", false⟩ retryEnv
    (by decide) rfl (by decide) rfl).2.2 "push failed" "push failed" (by decide) (by decide) (by decide)

/-- Digit characters are distinct below the base. -/
theorem digitChar_inj_lt10 :
    ∀ a, a < 10 → ∀ b, b < 10 → Nat.digitChar a = Nat.digitChar b → a = b := by decide

/-- Mapping `Nat.digitChar` over lists of decimal digits is injective. -/
theorem mapDigitChar_inj (l1 : List Nat) : ∀ (l2 : List Nat),
    (∀ d ∈ l1, d < 10) → (∀ d ∈ l2, d < 10) →
    l1.map Nat.digitChar = l2.map Nat.digitChar → l1 = l2 := by
  induction l1 with
  | nil =>
    intro l2 _ _ h
    cases l2 with
    | nil => rfl
    | cons b t2 => simp at h
  | cons a t ih =>
    intro l2 h1 h2 h
    cases l2 with
    | nil => simp at h
    | cons b t2 =>
      simp only [List.map_cons, List.cons.injEq] at h
      have hab : a = b := digitChar_inj_lt10 a (h1 a (List.mem_cons_self a t)) b
        (h2 b (List.mem_cons_self b t2)) h.1
      subst hab
      have ht := ih t2 (fun d hd => h1 d (List.mem_cons_of_mem _ hd))
        (fun d hd => h2 d (List.mem_cons_of_mem _ hd)) h.2
      rw [ht]

/-- A positive number never renders as the string of the single digit 0. -/
theorem decRender_pos_ne_zero_str (n : Nat) (hn : n ≠ 0) :
    String.mk (((Nat.digits 10 n).map Nat.digitChar).reverse) ≠ "0" := by
  intro h
  have hd : ((Nat.digits 10 n).map Nat.digitChar).reverse = ['0'] := by
    have := congrArg String.data h
    simpa using this
  have hmap : (Nat.digits 10 n).map Nat.digitChar = ['0'] := by
    have := congrArg List.reverse hd
    simpa using this
  have hdig : Nat.digits 10 n = [0] := by
    cases hds : Nat.digits 10 n with
    | nil => rw [hds] at hmap; simp at hmap
    | cons a t =>
      rw [hds] at hmap
      simp only [List.map_cons, List.cons.injEq] at hmap
      have ha : a < 10 := Nat.digits_lt_base (by norm_num) (hds ▸ List.mem_cons_self a t)
      have ha0 : a = 0 := digitChar_inj_lt10 a ha 0 (by norm_num) (by simpa using hmap.1)
      have ht : t = [] := by
        cases t with
        | nil => rfl
        | cons x y => simp at hmap
      rw [ha0, ht]
  have : n = 0 := by
    have := Nat.ofDigits_digits 10 n
    rw [hdig] at this
    simpa [Nat.ofDigits] using this.symm
  exact hn this

/-- The decimal rendering of naturals is injective. -/
theorem decRender_inj : Function.Injective decRender := by
  intro m n h
  unfold decRender at h
  by_cases hm : m = 0 <;> by_cases hn : n = 0
  · rw [hm, hn]
  · rw [if_pos hm, if_neg hn] at h
    exact absurd h.symm (decRender_pos_ne_zero_str n hn)
  · rw [if_neg hm, if_pos hn] at h
    exact absurd h (decRender_pos_ne_zero_str m hm)
  · rw [if_neg hm, if_neg hn] at h
    have hdata := congrArg String.data h
    simp only [] at hdata
    have hrev : ((Nat.digits 10 m).map Nat.digitChar).reverse =
        ((Nat.digits 10 n).map Nat.digitChar).reverse := hdata
    have hmap := List.reverse_injective hrev
    have hdig := mapDigitChar_inj (Nat.digits 10 m) (Nat.digits 10 n)
      (fun d hd => Nat.digits_lt_base (by norm_num) hd)
      (fun d hd => Nat.digits_lt_base (by norm_num) hd) hmap
    exact Nat.digits_inj_iff.mp hdig

/-- Distinct clock values name distinct ephemeral workspaces under the
same temporary root. -/
theorem tempDirOf_injective (tmp : String) {n1 n2 : Nat} (h : n1 ≠ n2) :
    tempDirOf tmp n1 ≠ tempDirOf tmp n2 := by
  intro he
  apply h
  apply decRender_inj
  unfold tempDirOf joinPath at he
  have hd := congrArg String.data he
  simp only [String.data_append, List.append_assoc] at hd
  have h1 := List.append_cancel_left hd
  have h2 := List.append_cancel_left h1
  have h3 := List.append_cancel_left h2
  exact String.ext h3

/-- The push loop never emits the provisioning-grace sleep. -/
theorem pushLoop_sleep3000_zero (res : Nat → Option String) :
    countEff isSleep3000 (pushLoop res 3).1 = 0 := by
  cases h0 : res 0 with
  | none => rw [pushLoop_firstOk res h0]; rfl
  | some e0 =>
    cases h1 : res 1 with
    | none => simp [pushLoop, pushLoopFuel, h0, h1, countEff, List.filter, isSleep3000]
    | some e1 =>
      cases h2 : res 2 with
      | none =>
        rw [pushLoop_thirdOk res e0 e1 h0 h1 h2]
        simp [countEff, List.filter, isSleep3000]
      | some e2 =>
        rw [pushLoop_allFail res e0 e1 e2 h0 h1 h2]
        simp [countEff, List.filter, isSleep3000]

/-- On a live run that reaches the staging phase, the provisioning-grace
sleep occurs exactly when the creation outcome is fresh (not
alreadyExists), and nowhere else. -/
theorem createAlbumLive_sleep3000_count (sourceDir : String) (photos : List String)
    (fullRepoName albumUrl : String) (opts : AlbumOptions) (env : AlbumEnv)
    (hcr : (createGitHubRepo fullRepoName opts.token opts.username env.repoEnv).1.success = true)
    (hclone : env.cloneErr = none) :
    countEff isSleep3000 (createAlbumLive sourceDir photos fullRepoName albumUrl opts env).2 =
      if (createGitHubRepo fullRepoName opts.token opts.username env.repoEnv).1.alreadyExists
      then 0 else 1 := by
  have hrepo0 : List.filter isSleep3000
      (createGitHubRepo fullRepoName opts.token opts.username env.repoEnv).2 = [] := by
    rcases createGitHubRepo_effects_shape fullRepoName opts.token opts.username env.repoEnv with
      h | ⟨url, h⟩ <;> simp [h, List.filter, isSleep3000]
  have hsec0 : List.filter isSleep3000 (createRepoSecret opts.username fullRepoName "DEPLOY_TOKEN"
      opts.token opts.token env.secretEnv).2 = [] := by
    rcases createRepoSecret_effects_shape opts.username fullRepoName "DEPLOY_TOKEN"
      opts.token opts.token env.secretEnv with h | h <;> simp [h, List.filter, isSleep3000]
  have hmap0 : ∀ (f : String → Effect), (∀ x, isSleep3000 (f x) = false) →
      List.filter isSleep3000 (photos.map f) = [] := by
    intro f hf
    induction photos with
    | nil => rfl
    | cons a t ih => simp only [List.map_cons, List.filter, hf a]; exact ih
  have hpl0 := pushLoop_sleep3000_zero env.pushResults
  have hpl0f : List.filter isSleep3000 (pushLoop env.pushResults 3).1 = [] := by
    have := hpl0
    simpa [countEff, List.length_eq_zero] using this
  have hmapc := hmap0 (fun q => Effect.copyFile (joinPath sourceDir q)
    (joinPath (joinPath (joinPath (joinPath (tempDirOf env.tmpdir env.now) "public") "photos") "raw2") q))
    (fun x => rfl)
  unfold createAlbumLive
  cases hpl : (pushLoop env.pushResults 3).2 with
  | error e =>
    simp [hcr, hclone, hpl, countEff, List.filter_append, apply_ite (List.filter isSleep3000),
      List.filter, isSleep3000, hrepo0, hsec0, hmapc, hpl0f, apply_ite List.length]
  | ok u =>
    simp [hcr, hclone, hpl, countEff, List.filter_append, apply_ite (List.filter isSleep3000),
      List.filter, isSleep3000, hrepo0, hsec0, hmapc, hpl0f, apply_ite List.length]

/-- A non-ok creation response whose first error message mentions
"already exists" yields success with alreadyExists. -/
theorem createGitHubRepo_alreadyExists_outcome (name token username : String)
    (env : CreateRepoEnv) (hu : env.userOk = true) (hc : env.createOk = false)
    (ha : alreadyExistsResp env.createErrors = true) :
    (createGitHubRepo name token username env).1 =
      { success := true, error := none, alreadyExists := true } := by
  simp [createGitHubRepo, hu, hc, ha]

/-- An ok creation response carrying a full_name yields a fresh success. -/
theorem createGitHubRepo_fresh_outcome (name token username : String)
    (env : CreateRepoEnv) (fn : String) (hu : env.userOk = true)
    (hc : env.createOk = true) (hf : env.createFullName = some fn) :
    (createGitHubRepo name token username env).1 =
      { success := true, error := none, alreadyExists := false } := by
  simp [createGitHubRepo, hu, hc, hf]

/-- C3 amended form: a repository-creation response that is non-ok and
whose error list has a FIRST entry whose message mentions "already
exists" (the source tests only `data.errors?.[0]`) is treated as success
with alreadyExists; the run then skips the provisioning-grace sleep
entirely and still succeeds (when clone and push succeed), whereas a
fresh creation sleeps the grace interval exactly once. -/
theorem createAlbum_alreadyExists_skips_grace (sourceDir : String) (srcState : DirState)
    (repoName : String) (opts : AlbumOptions) (env env2 : AlbumEnv)
    (hp : getPhotosInDir srcState ≠ []) (hd : opts.dryRun = false)
    (hu : env.repoEnv.userOk = true) (hc : env.repoEnv.createOk = false)
    (ha : alreadyExistsResp env.repoEnv.createErrors = true)
    (hclone : env.cloneErr = none) (hpush : env.pushResults 0 = none)
    (fn : String) (hu2 : env2.repoEnv.userOk = true) (hc2 : env2.repoEnv.createOk = true)
    (hf2 : env2.repoEnv.createFullName = some fn) (hclone2 : env2.cloneErr = none) :
    (createGitHubRepo (fullNameOf repoName) opts.token opts.username env.repoEnv).1 =
      { success := true, error := none, alreadyExists := true } ∧
    (createAlbum sourceDir srcState repoName opts env).1.success = true ∧
    countEff isSleep3000 (createAlbum sourceDir srcState repoName opts env).2 = 0 ∧
    countEff isSleep3000 (createAlbum sourceDir srcState repoName opts env2).2 = 1 := by
  have hout := createGitHubRepo_alreadyExists_outcome (fullNameOf repoName) opts.token
    opts.username env.repoEnv hu hc ha
  have hcr : (createGitHubRepo (fullNameOf repoName) opts.token opts.username env.repoEnv).1.success = true := by
    rw [hout]
  have hae : (createGitHubRepo (fullNameOf repoName) opts.token opts.username env.repoEnv).1.alreadyExists = true := by
    rw [hout]
  have hout2 := createGitHubRepo_fresh_outcome (fullNameOf repoName) opts.token
    opts.username env2.repoEnv fn hu2 hc2 hf2
  have hcr2 : (createGitHubRepo (fullNameOf repoName) opts.token opts.username env2.repoEnv).1.success = true := by
    rw [hout2]
  have hae2 : (createGitHubRepo (fullNameOf repoName) opts.token opts.username env2.repoEnv).1.alreadyExists = false := by
    rw [hout2]
  have hlive := createAlbum_live_eq sourceDir srcState repoName opts env hp hd
  have hlive2 := createAlbum_live_eq sourceDir srcState repoName opts env2 hp hd
  have hpl2 : (pushLoop env.pushResults 3).2 = Except.ok () := by
    rw [pushLoop_firstOk env.pushResults hpush]
  refine ⟨hout, ?_, ?_, ?_⟩
  · rw [hlive, createAlbumLive_success_result sourceDir (getPhotosInDir srcState)
      (fullNameOf repoName) ("https://rathnasorg.github.io/i4tow/a/" ++ fullNameOf repoName)
      opts env hcr hclone () hpl2]
  · rw [hlive, createAlbumLive_sleep3000_count sourceDir (getPhotosInDir srcState)
      (fullNameOf repoName) ("https://rathnasorg.github.io/i4tow/a/" ++ fullNameOf repoName)
      opts env hcr hclone, hae]
    simp
  · rw [hlive2, createAlbumLive_sleep3000_count sourceDir (getPhotosInDir srcState)
      (fullNameOf repoName) ("https://rathnasorg.github.io/i4tow/a/" ++ fullNameOf repoName)
      opts env2 hcr2 hclone2, hae2]
    simp

/-- Concrete non-ok creation response that reports a name collision. -/
def alreadyRepoEnv : CreateRepoEnv :=
  { userOk := true, userLogin := "tester", createOk := false,
    createMessage := some "Repository creation failed",
    createErrors := [⟨some "name already exists on this account"⟩],
    createFullName := none }

/-- Concrete live-run environment whose creation response is the name
collision. -/
def alreadyEnv : AlbumEnv := { sampleEnv with repoEnv := alreadyRepoEnv }

/-- Witness for C3 at the concrete name-collision environment, contrasted
with the concrete fresh-creation environment. -/
theorem createAlbum_alreadyExists_skips_grace_witness :
    (createGitHubRepo (fullNameOf "Alb") "tok" "tester" alreadyRepoEnv).1 =
      { success := true, error := none, alreadyExists := true } ∧
    (createAlbum "/p" samplePhotoDir "Alb" ⟨"tok", "tester", false⟩ alreadyEnv).1.success = true ∧
    countEff isSleep3000 (createAlbum "/p" samplePhotoDir "Alb" ⟨"tok", "tester", false⟩ alreadyEnv).2 = 0 ∧
    countEff isSleep3000 (createAlbum "/p" samplePhotoDir "Alb" ⟨"tok", "tester", false⟩ sampleEnv).2 = 1 :=
  createAlbum_alreadyExists_skips_grace "/p" samplePhotoDir "Alb" ⟨"tok", "tester", false⟩
    alreadyEnv sampleEnv (by decide) rfl rfl rfl (by decide) rfl rfl
    "tester/i4tow-Alb" rfl rfl rfl rfl

/-- Concrete non-ok creation response whose error list mentions "already
exists" only in its SECOND entry; the source tests only the first. -/
def secondErrorRepoEnv : CreateRepoEnv :=
  { userOk := true, userLogin := "tester", createOk := false,
    createMessage := some "Repository creation failed",
    createErrors := [⟨some "Validation Failed"⟩,
                     ⟨some "name already exists on this account"⟩],
    createFullName := none }

/-- Concrete live-run environment, otherwise all-success, whose creation
response is the second-entry name collision above. -/
def secondErrorEnv : AlbumEnv := { sampleEnv with repoEnv := secondErrorRepoEnv }

/-- C3 counterexample: a non-ok creation response whose error list does
contain a message including "already exists" — but in its second entry,
not its first — is NOT treated as an existing repository: the creation
outcome is a failure without alreadyExists, and the album run fails even
though clone, push, and secret provisioning would all succeed, against
the claim's promised success. -/
theorem createAlbum_alreadyExists_second_entry_cex :
    (⟨some "name already exists on this account"⟩ : ErrObj) ∈ secondErrorRepoEnv.createErrors ∧
    jsIncludes "name already exists on this account" "already exists" = true ∧
    (createGitHubRepo "i4tow-Alb" "tok" "tester" secondErrorRepoEnv).1.success = false ∧
    (createGitHubRepo "i4tow-Alb" "tok" "tester" secondErrorRepoEnv).1.alreadyExists = false ∧
    (createAlbum "/p" samplePhotoDir "Alb" ⟨"tok", "tester", false⟩ secondErrorEnv).1.success = false := by
  refine ⟨?_, ?_, ?_, ?_, ?_⟩ <;> decide

/-- C6: on every live run that reaches the secret-provisioning step (repo
created, clone ok, push succeeded), the album result does not depend on
the secret-provisioning outcome at all, the album succeeds, and a failing
outcome is surfaced only as the Warning progress event in the trace. -/
theorem createAlbum_secret_failure_nonfatal (sourceDir : String) (srcState : DirState)
    (repoName : String) (opts : AlbumOptions) (env : AlbumEnv)
    (hp : getPhotosInDir srcState ≠ []) (hd : opts.dryRun = false)
    (hcr : (createGitHubRepo (fullNameOf repoName) opts.token opts.username env.repoEnv).1.success = true)
    (hclone : env.cloneErr = none) (u : Unit)
    (hpl : (pushLoop env.pushResults 3).2 = Except.ok u) :
    (∀ se : SecretEnv,
      (createAlbum sourceDir srcState repoName opts { env with secretEnv := se }).1 =
        (createAlbum sourceDir srcState repoName opts env).1) ∧
    (createAlbum sourceDir srcState repoName opts env).1.success = true ∧
    ((createRepoSecret opts.username (fullNameOf repoName) "DEPLOY_TOKEN"
        opts.token opts.token env.secretEnv).1.success = false →
      Effect.progressEv "Warning" (some ("Could not create deploy secret: " ++
          jsRenderOpt (createRepoSecret opts.username (fullNameOf repoName) "DEPLOY_TOKEN"
            opts.token opts.token env.secretEnv).1.error)) ∈
        (createAlbum sourceDir srcState repoName opts env).2) := by
  have hlive := createAlbum_live_eq sourceDir srcState repoName opts env hp hd
  have hres := createAlbumLive_success_result sourceDir (getPhotosInDir srcState)
    (fullNameOf repoName) ("https://rathnasorg.github.io/i4tow/a/" ++ fullNameOf repoName)
    opts env hcr hclone u hpl
  refine ⟨?_, ?_, ?_⟩
  · intro se
    have hlive2 := createAlbum_live_eq sourceDir srcState repoName opts
      { env with secretEnv := se } hp hd
    have hres2 := createAlbumLive_success_result sourceDir (getPhotosInDir srcState)
      (fullNameOf repoName) ("https://rathnasorg.github.io/i4tow/a/" ++ fullNameOf repoName)
      opts { env with secretEnv := se } hcr hclone u hpl
    rw [hlive2, hlive, hres2, hres]
  · rw [hlive, hres]
  · intro hsec
    rw [hlive]
    unfold createAlbumLive
    simp [hcr, hclone, hpl, hsec, List.mem_append]

/-- Concrete live-run environment whose secret key fetch fails. -/
def secretFailEnv : AlbumEnv :=
  { sampleEnv with secretEnv := { keyOk := false, putOk := true, putMessage := none } }

/-- Witness for C6 at the concrete failing secret environment. -/
theorem createAlbum_secret_failure_nonfatal_witness :
    ((createAlbum "/p" samplePhotoDir "Alb" ⟨"tok", "tester", false⟩
        { secretFailEnv with secretEnv := sampleSecretEnvOk }).1 =
      (createAlbum "/p" samplePhotoDir "Alb" ⟨"tok", "tester", false⟩ secretFailEnv).1) ∧
    (createAlbum "/p" samplePhotoDir "Alb" ⟨"tok", "tester", false⟩ secretFailEnv).1.success = true ∧
    Effect.progressEv "Warning" (some ("Could not create deploy secret: " ++
        jsRenderOpt (createRepoSecret "tester" (fullNameOf "Alb") "DEPLOY_TOKEN"
          "tok" "tok" secretFailEnv.secretEnv).1.error)) ∈
      (createAlbum "/p" samplePhotoDir "Alb" ⟨"tok", "tester", false⟩ secretFailEnv).2 :=
  ⟨(createAlbum_secret_failure_nonfatal "/p" samplePhotoDir "Alb" ⟨"tok", "tester", false⟩
      secretFailEnv (by decide) rfl (by decide) rfl () rfl).1 sampleSecretEnvOk,
   (createAlbum_secret_failure_nonfatal "/p" samplePhotoDir "Alb" ⟨"tok", "tester", false⟩
      secretFailEnv (by decide) rfl (by decide) rfl () rfl).2.1,
   (createAlbum_secret_failure_nonfatal "/p" samplePhotoDir "Alb" ⟨"tok", "tester", false⟩
      secretFailEnv (by decide) rfl (by decide) rfl () rfl).2.2 (by decide)⟩

/-- C9: distinct clock values give distinct ephemeral workspaces under the
same temporary root (so two runs of a batch never share one), the album
result is entirely independent of whether the final workspace removal
throws, and a successful run removes its workspace at the end. -/
theorem createAlbum_workspace_fresh_and_cleaned (tmp : String) (n1 n2 : Nat) (hne : n1 ≠ n2)
    (sourceDir : String) (srcState : DirState) (repoName : String)
    (opts : AlbumOptions) (env : AlbumEnv)
    (hp : getPhotosInDir srcState ≠ []) (hd : opts.dryRun = false)
    (hcr : (createGitHubRepo (fullNameOf repoName) opts.token opts.username env.repoEnv).1.success = true)
    (hclone : env.cloneErr = none) (u : Unit)
    (hpl : (pushLoop env.pushResults 3).2 = Except.ok u) :
    tempDirOf tmp n1 ≠ tempDirOf tmp n2 ∧
    (∀ b, createAlbum sourceDir srcState repoName opts { env with cleanupThrows := b } =
      createAlbum sourceDir srcState repoName opts env) ∧
    (createAlbum sourceDir srcState repoName opts env).1.success = true ∧
    Effect.rmDir (tempDirOf env.tmpdir env.now) ∈
      (createAlbum sourceDir srcState repoName opts env).2 := by
  have hlive := createAlbum_live_eq sourceDir srcState repoName opts env hp hd
  have hres := createAlbumLive_success_result sourceDir (getPhotosInDir srcState)
    (fullNameOf repoName) ("https://rathnasorg.github.io/i4tow/a/" ++ fullNameOf repoName)
    opts env hcr hclone u hpl
  refine ⟨tempDirOf_injective tmp hne, ?_, ?_, ?_⟩
  · intro b; rfl
  · rw [hlive, hres]
  · rw [hlive]
    unfold createAlbumLive
    simp [hcr, hclone, hpl, List.mem_append]

/-- Witness for C9 at two concrete clock values and the concrete
all-success environment. -/
theorem createAlbum_workspace_fresh_and_cleaned_witness :
    tempDirOf "/tmp" 1 ≠ tempDirOf "/tmp" 2 ∧
    createAlbum "/p" samplePhotoDir "Alb" ⟨"tok", "tester", false⟩
        { sampleEnv with cleanupThrows := true } =
      createAlbum "/p" samplePhotoDir "Alb" ⟨"tok", "tester", false⟩ sampleEnv ∧
    (createAlbum "/p" samplePhotoDir "Alb" ⟨"tok", "tester", false⟩ sampleEnv).1.success = true ∧
    Effect.rmDir (tempDirOf sampleEnv.tmpdir sampleEnv.now) ∈
      (createAlbum "/p" samplePhotoDir "Alb" ⟨"tok", "tester", false⟩ sampleEnv).2 :=
  let h := createAlbum_workspace_fresh_and_cleaned "/tmp" 1 2 (by decide) "/p" samplePhotoDir
    "Alb" ⟨"tok", "tester", false⟩ sampleEnv (by decide) rfl (by decide) rfl () rfl
  ⟨h.1, h.2.1 true, h.2.2.1, h.2.2.2⟩

/-- The batch loop is the map of the album run over the subdirectories
that contain at least one photo. -/
theorem filterMap_albums (dirPath : String) (fs : BatchFs) (ao : AlbumOptions)
    (envs : String → AlbumEnv) (l : List String) :
    (l.filterMap (fun subdir =>
      if (getPhotosInDir (fs.subState subdir)).length > 0 then
        some (createAlbum (joinPath dirPath subdir) (fs.subState subdir)
          (sanitizeRepoName subdir) ao (envs (joinPath dirPath subdir))).1
      else none)) =
    (l.filter (fun s => decide ((getPhotosInDir (fs.subState s)).length > 0))).map
      (fun s => (createAlbum (joinPath dirPath s) (fs.subState s) (sanitizeRepoName s)
        ao (envs (joinPath dirPath s))).1) := by
  induction l with
  | nil => rfl
  | cons a t ih =>
    by_cases h : (getPhotosInDir (fs.subState a)).length > 0 <;>
      simp [List.filterMap_cons, List.filter, h, ih]

/-- C5: the planner precedence of processDirectory.  The single flag, or
photos at the root with no subdirectories, or photos at the root without
the batch flag, give exactly one album on the root named from its
basename; otherwise the batch flag or the presence of subdirectories give
one album per subdirectory with photos, silently skipping empty ones; and
a flagless run on a root with neither photos nor subdirectories gives no
albums. -/
theorem processDirectory_planner_precedence (dirPath : String) (fs : BatchFs)
    (opts : BatchOptions) (envs : String → AlbumEnv) :
    ((opts.single = true ∨
      (getPhotosInDir fs.root ≠ [] ∧ getSubdirs fs.root = []) ∨
      (getPhotosInDir fs.root ≠ [] ∧ opts.batch = false)) →
      processDirectory dirPath fs opts envs =
        [(createAlbum dirPath fs.root (sanitizeRepoName (pathBasename dirPath))
          opts.toAlbumOptions (envs dirPath)).1]) ∧
    (opts.single = false →
      (getPhotosInDir fs.root = [] ∨ (getSubdirs fs.root ≠ [] ∧ opts.batch = true)) →
      (opts.batch = true ∨ getSubdirs fs.root ≠ []) →
      processDirectory dirPath fs opts envs =
        ((getSubdirs fs.root).filter
          (fun s => decide ((getPhotosInDir (fs.subState s)).length > 0))).map
          (fun s => (createAlbum (joinPath dirPath s) (fs.subState s) (sanitizeRepoName s)
            opts.toAlbumOptions (envs (joinPath dirPath s))).1)) ∧
    (opts.single = false → opts.batch = false → getPhotosInDir fs.root = [] →
      getSubdirs fs.root = [] → processDirectory dirPath fs opts envs = []) := by
  refine ⟨?_, ?_, ?_⟩
  · intro h
    rcases h with hsingle | ⟨hp, hs⟩ | ⟨hp, hb⟩
    · simp [processDirectory, hsingle]
    · simp [processDirectory, hs, List.length_pos, hp]
    · simp [processDirectory, hb, List.length_pos, hp]
  · intro hsingle hroot hcond2
    unfold processDirectory
    dsimp only
    split_ifs with hA hB
    · exfalso
      rcases hroot with hphotos | ⟨hsub, hbatch⟩
      · simp [hsingle, hphotos] at hA
      · simp [hsingle, hbatch, List.length_pos, hsub] at hA
    · exact filterMap_albums dirPath fs opts.toAlbumOptions envs (getSubdirs fs.root)
    · exfalso
      rcases hcond2 with hbatch | hsub
      · simp [hbatch] at hB
      · simp [List.length_pos, hsub] at hB
  · intro hsingle hbatch hphotos hsubs
    simp [processDirectory, hsingle, hbatch, hphotos, hsubs]

/-- Concrete root listing two subdirectories and no photos of its own. -/
def batchRootDir : DirState :=
  { present := true, readdirThrows := false,
    entries := [⟨"Album1", false, true, false⟩, ⟨"EmptyAlbum", false, true, false⟩] }

/-- Concrete batch filesystem: Album1 holds one photo, EmptyAlbum none. -/
def batchFsSample : BatchFs :=
  { root := batchRootDir,
    subState := fun s =>
      if s = "Album1" then ⟨true, false, [⟨"photo.jpg", true, false, false⟩]⟩
      else ⟨true, false, []⟩ }

/-- Witness for C5: the batch branch at the concrete two-subdirectory
root, with batch forced. -/
theorem processDirectory_planner_precedence_witness :
    processDirectory "/photos" batchFsSample ⟨"tok", "tester", true, true, false⟩
        (fun _ => sampleEnv) =
      ((getSubdirs batchFsSample.root).filter
        (fun s => decide ((getPhotosInDir (batchFsSample.subState s)).length > 0))).map
        (fun s => (createAlbum (joinPath "/photos" s) (batchFsSample.subState s)
          (sanitizeRepoName s) (BatchOptions.toAlbumOptions ⟨"tok", "tester", true, true, false⟩)
          sampleEnv).1) :=
  (processDirectory_planner_precedence "/photos" batchFsSample
      ⟨"tok", "tester", true, true, false⟩ (fun _ => sampleEnv)).2.1
    rfl (Or.inl (by decide)) (Or.inl rfl)

end I4tow
